import Mathlib

/-!
Verification of the cluster MSI credential-lifecycle code in
pkg/cluster/clustermsi.go: a shallow embedding of its data model and
operations, plus theorems settling the specification claims.

Modelling conventions:
* Go pointers that may be nil become Option.
* Go errors become an explicit error datatype GoError; fallible functions
  return Except GoError.
* The Go map UserAssignedIdentities (map from string to
  ClusterUserAssignedIdentity) is embedded as an association list; the
  mutation in clusterIdentityIDs iterates over it and updates the first
  case-insensitive match.
* time.Time is embedded as seconds since the Unix epoch (Int) plus
  nanoseconds (Nat); time.Parse with the RFC3339 layout is embedded as an
  executable parser parseRFC3339 below.
* The external collaborators (key-vault secret store, MSI dataplane
  service, clock) are a World record of response functions; the side
  effects a call performs (dataplane fetches, store writes) are returned
  as an explicit event trace.
-/

/-- A per-identity record of the MSI credentials response
(swagger.NestedCredentialsObject, restricted to the fields this code
reads: ClientID, ObjectID, NotAfter; all are nilable strings in Go). -/
structure NestedCredentialsObject where
  clientID : Option String
  objectID : Option String
  notAfter : Option String
deriving DecidableEq, Repr

/-- The opaque credentials payload (swagger.CredentialsObject):
ExplicitIdentities is a nilable slice of nilable per-identity records;
raw stands for the rest of the opaque payload that this code stores but
never inspects. -/
structure CredentialsObject where
  explicitIdentities : Option (List (Option NestedCredentialsObject))
  raw : String
deriving DecidableEq, Repr

/-- dataplane.UserAssignedIdentities wraps an embedded
swagger.CredentialsObject. -/
structure UserAssignedIdentities where
  credentialsObject : CredentialsObject
deriving DecidableEq, Repr

/-- Field access through the embedded struct: msiCredObj.ExplicitIdentities
in Go resolves to the embedded CredentialsObject's field. -/
def UserAssignedIdentities.explicitIdentities (u : UserAssignedIdentities) :
    Option (List (Option NestedCredentialsObject)) :=
  u.credentialsObject.explicitIdentities

/-- Go error values as this code distinguishes them: errors.New / fmt.Errorf
values (identified by message), azcore.ResponseError values (carrying an
HTTP status code), a store infrastructure error, and a time.Parse failure
(carrying the rejected input). -/
inductive GoError where
  | errorsNew (msg : String)
  | responseError (statusCode : Nat) (msg : String)
  | storeError (msg : String)
  | parseError (input : String)
deriving DecidableEq, Repr

/-- errClusterMsiNotPresentInResponse from clustermsi.go. -/
def errClusterMsiNotPresentInResponse : GoError :=
  .errorsNew "cluster msi not present in msi credentials response"

/-- The type-assertion-plus-status check in ensureClusterMsiCertificate:
err is a *azcore.ResponseError whose StatusCode is http.StatusNotFound. -/
def isNotFoundResponse : GoError → Bool
  | .responseError statusCode _ => statusCode == 404
  | _ => false

/-- getSingleExplicitIdentity from clustermsi.go: fails with
errClusterMsiNotPresentInResponse when ExplicitIdentities is nil, empty,
or has a nil first element; otherwise returns the first element. -/
def getSingleExplicitIdentity (msiCredObj : UserAssignedIdentities) :
    Except GoError NestedCredentialsObject :=
  match msiCredObj.explicitIdentities with
  | none => .error errClusterMsiNotPresentInResponse
  | some [] => .error errClusterMsiNotPresentInResponse
  | some (none :: _) => .error errClusterMsiNotPresentInResponse
  | some (some first :: _) => .ok first

/-- ASCII lower-casing of a character, as Go strings case-folding acts on
the ASCII range. -/
def toLowerAscii (c : Char) : Char :=
  if 'A' ≤ c ∧ c ≤ 'Z' then Char.ofNat (c.toNat + 32) else c

/-- strings.EqualFold, on the ASCII fragment (Azure resource identifiers
are ASCII): two strings are equal under simple case-folding exactly when
their ASCII-lowercased character sequences are equal. -/
def equalFold (s t : String) : Bool :=
  s.toList.map toLowerAscii == t.toList.map toLowerAscii

/-- One entry of the document's UserAssignedIdentities map
(api.ClusterUserAssignedIdentity). -/
structure ClusterUserAssignedIdentity where
  clientID : String
  principalID : String
deriving DecidableEq, Repr

/-- The document's Identity sub-record: TenantID, IdentityURL, and the
UserAssignedIdentities map, embedded as an association list. -/
structure Identity where
  tenantID : String
  identityURL : String
  userAssignedIdentities : List (String × ClusterUserAssignedIdentity)
deriving DecidableEq, Repr

/-- The OpenShiftCluster record, restricted to what this code reads.
Modelled from the spec: UsesWorkloadIdentity (defined in the api package,
outside src/) tests whether the cluster is of the workload-identity kind;
we carry that bit as the field usesWorkloadIdentityFlag. -/
structure OpenShiftCluster where
  usesWorkloadIdentityFlag : Bool
  identity : Identity
deriving DecidableEq, Repr

/-- Modelled from the spec: the workload-identity-kind test on a cluster
(api method UsesWorkloadIdentity, outside src/). -/
def OpenShiftCluster.UsesWorkloadIdentity (c : OpenShiftCluster) : Bool :=
  c.usesWorkloadIdentityFlag

/-- api.OpenShiftClusterDocument: versioned record with immutable Key,
document ID, and the cluster payload. -/
structure OpenShiftClusterDocument where
  id : String
  key : String
  openShiftCluster : OpenShiftCluster
deriving DecidableEq, Repr

/-- An Azure resource identifier as this code uses it: its full string
form (the String method) and its final Name segment. Modelled from the
spec: ClusterMsiResourceId (api package, outside src/) parses the
document's configured identity into this shape. -/
structure ResourceID where
  str : String
  name : String
deriving DecidableEq, Repr

/-- dataplane.UserAssignedMSIRequest. -/
structure UserAssignedMSIRequest where
  identityURL : String
  resourceIDs : List String
  tenantID : String
deriving DecidableEq, Repr

/-- A time instant: seconds since the Unix epoch plus nanoseconds. -/
structure Time where
  sec : Int
  nsec : Nat
deriving DecidableEq, Repr

/-- time.Time.AddDate(0, 0, d) for a UTC instant: adding d calendar days
is adding d times 86400 seconds. -/
def Time.addDays (t : Time) (d : Int) : Time :=
  { t with sec := t.sec + d * 86400 }

/-- store.SecretProperties as written by ensureClusterMsiCertificate. -/
structure SecretProperties where
  enabled : Bool
  expires : Time
  name : String
  notBefore : Time
deriving DecidableEq, Repr

/-- mockMsiCertValidityDays from clustermsi.go. -/
def mockMsiCertValidityDays : Int := 90

/-- Is c an ASCII decimal digit. -/
def isDigit (c : Char) : Bool :=
  '0' ≤ c ∧ c ≤ '9'

/-- Numeric value of an ASCII digit. -/
def digitVal (c : Char) : Nat :=
  c.toNat - 48

/-- Read exactly n ASCII digits from the front of the input, returning
their value and the remaining input. -/
def parseFixed : Nat → List Char → Option (Nat × List Char)
  | 0, cs => some (0, cs)
  | _ + 1, [] => none
  | n + 1, c :: cs =>
    if isDigit c then
      match parseFixed n cs with
      | some (v, rest) => some (digitVal c * 10 ^ n + v, rest)
      | none => none
    else none

/-- Require the given literal character at the front of the input. -/
def expectChar (c : Char) : List Char → Option (List Char)
  | [] => none
  | d :: cs => if d = c then some cs else none

/-- Value of a digit string read left to right. -/
def digitsVal (ds : List Char) : Nat :=
  ds.foldl (fun a c => a * 10 + digitVal c) 0

/-- Nanoseconds denoted by a fractional-seconds digit string (at most the
first nine digits are significant). -/
def digitsToNanos (ds : List Char) : Nat :=
  let t := ds.take 9
  digitsVal t * 10 ^ (9 - t.length)

/-- Parse an optional fractional-seconds field: either nothing, or a dot
followed by at least one digit. -/
def parseFrac : List Char → Option (Nat × List Char)
  | '.' :: cs =>
    let ds := cs.takeWhile isDigit
    if ds = [] then none else some (digitsToNanos ds, cs.dropWhile isDigit)
  | cs => some (0, cs)

/-- Parse the RFC3339 zone designator: Z, or a sign followed by a
two-digit hour, a colon and a two-digit minute. Returns the zone offset
east of UTC in seconds. -/
def parseZone : List Char → Option (Int × List Char)
  | [] => none
  | c :: cs =>
    if c = 'Z' then some (0, cs)
    else if c = '+' ∨ c = '-' then
      match parseFixed 2 cs with
      | none => none
      | some (zh, cs₁) =>
        match expectChar ':' cs₁ with
        | none => none
        | some cs₂ =>
          match parseFixed 2 cs₂ with
          | none => none
          | some (zm, cs₃) =>
            if zh ≤ 23 ∧ zm ≤ 59 then
              let off : Int := (zh * 3600 + zm * 60 : Nat)
              some (if c = '-' then -off else off, cs₃)
            else none
    else none

/-- Is y a leap year in the proleptic Gregorian calendar. -/
def isLeapYear (y : Nat) : Bool :=
  (y % 4 == 0 && y % 100 != 0) || y % 400 == 0

/-- Number of days in the given month of the given year. -/
def daysInMonth (y m : Nat) : Nat :=
  if m == 2 then (if isLeapYear y then 29 else 28)
  else if m == 4 || m == 6 || m == 9 || m == 11 then 30
  else 31

/-- Days from the Unix epoch to the given proleptic-Gregorian civil date
(the standard era/year-of-era/day-of-year computation; every division here
acts on a nonnegative value). -/
def daysFromCivil (y m d : Nat) : Int :=
  let y' : Int := if m ≤ 2 then (y : Int) - 1 else (y : Int)
  let era : Int := (if 0 ≤ y' then y' else y' - 399) / 400
  let yoe : Int := y' - era * 400
  let mp : Int := ((m : Int) + 9) % 12
  let doy : Int := (153 * mp + 2) / 5 + (d : Int) - 1
  let doe : Int := yoe * 365 + yoe / 4 - yoe / 100 + doy
  era * 146097 + doe - 719468

/-- time.Parse with the time.RFC3339 layout: a strict
yyyy-mm-ddThh:mm:ss timestamp, an optional fractional-seconds field, and
a Z or numeric zone designator, with calendar and range validation;
yields the denoted instant. -/
def parseRFC3339 (s : String) : Option Time := do
  let cs := s.toList
  let (y, cs) ← parseFixed 4 cs
  let cs ← expectChar '-' cs
  let (mo, cs) ← parseFixed 2 cs
  let cs ← expectChar '-' cs
  let (d, cs) ← parseFixed 2 cs
  let cs ← expectChar 'T' cs
  let (h, cs) ← parseFixed 2 cs
  let cs ← expectChar ':' cs
  let (mi, cs) ← parseFixed 2 cs
  let cs ← expectChar ':' cs
  let (sec, cs) ← parseFixed 2 cs
  let (ns, cs) ← parseFrac cs
  let (off, cs) ← parseZone cs
  if cs = [] ∧ 1 ≤ mo ∧ mo ≤ 12 ∧ 1 ≤ d ∧ d ≤ daysInMonth y mo ∧
      h ≤ 23 ∧ mi ≤ 59 ∧ sec ≤ 59 then
    some ⟨daysFromCivil y mo d * 86400 +
            ((h * 3600 + mi * 60 + sec : Nat) : Int) - off, ns⟩
  else none

/-- The events an operation can perform against the external
collaborators: a GetUserAssignedIdentities call to the MSI dataplane, and
a SetCredentialsObject write to the cluster MSI key vault store. -/
inductive Event where
  | fetch (req : UserAssignedMSIRequest)
  | kvWrite (properties : SecretProperties) (payload : CredentialsObject)
deriving DecidableEq, Repr

/-- The manager state these operations read: the cluster document, the
subscription document's tenant ID, the FeatureUseMockMsiRp feature flag,
and the (modelled, see ResourceID) outcome of ClusterMsiResourceId on the
document. -/
structure Manager where
  doc : OpenShiftClusterDocument
  subscriptionTenantID : String
  featureUseMockMsiRp : Bool
  clusterMsiResourceIdResult : Except GoError ResourceID

/-- Behaviour of the external collaborators during one call: the key
vault store's GetCredentialsObject and SetCredentialsObject responses,
the MSI dataplane's GetUserAssignedIdentities response, and the clock. -/
structure World where
  kvGet : String → Except GoError CredentialsObject
  kvSet : SecretProperties → CredentialsObject → Except GoError Unit
  dataplaneGet : UserAssignedMSIRequest → Except GoError UserAssignedIdentities
  now : Time

/-- clusterMsiSecretName from clustermsi.go: the document ID and the MSI
resource name joined by a dash. -/
def clusterMsiSecretName (m : Manager) : Except GoError String :=
  match m.clusterMsiResourceIdResult with
  | .error e => .error e
  | .ok clusterMsi => .ok (m.doc.id ++ "-" ++ clusterMsi.name)

/-- The dataplane.UserAssignedMSIRequest literal that both
ensureClusterMsiCertificate and clusterIdentityIDs construct from the
document's identity and the cluster MSI resource identifier. -/
def uaMsiRequest (m : Manager) (clusterMsiResourceId : ResourceID) :
    UserAssignedMSIRequest :=
  { identityURL := m.doc.openShiftCluster.identity.identityURL
    resourceIDs := [clusterMsiResourceId.str]
    tenantID := m.doc.openShiftCluster.identity.tenantID }

/-- ensureClusterMsiCertificate from clustermsi.go, returning the Go
function's result together with the trace of dataplane fetches and store
writes it performs. A successful store lookup returns with no further
action; a lookup error other than a 404 ResponseError is returned as is;
otherwise the credentials are fetched, the expiration is now plus 90 days
under the mock feature flag and the parsed NotAfter of the single
explicit identity otherwise, and one store write is attempted. -/
def ensureClusterMsiCertificate (m : Manager) (w : World) :
    Except GoError Unit × List Event :=
  match clusterMsiSecretName m with
  | .error e => (.error e, [])
  | .ok secretName =>
    match w.kvGet secretName with
    | .ok _ => (.ok (), [])
    | .error err =>
      if isNotFoundResponse err then
        match m.clusterMsiResourceIdResult with
        | .error e => (.error e, [])
        | .ok clusterMsiResourceId =>
          let req := uaMsiRequest m clusterMsiResourceId
          match w.dataplaneGet req with
          | .error e => (.error e, [.fetch req])
          | .ok msiCredObj =>
            let now := w.now
            let expirationDateOrErr : Except GoError Time :=
              if m.featureUseMockMsiRp then
                .ok (now.addDays mockMsiCertValidityDays)
              else
                match getSingleExplicitIdentity msiCredObj with
                | .error e => .error e
                | .ok identity =>
                  match identity.notAfter with
                  | none => .error (.errorsNew
                      "unable to pull NotAfter from the MSI CredentialsObject")
                  | some notAfter =>
                    match parseRFC3339 notAfter with
                    | none => .error (.parseError notAfter)
                    | some t => .ok t
            match expirationDateOrErr with
            | .error e => (.error e, [.fetch req])
            | .ok expirationDate =>
              let secretProperties : SecretProperties :=
                { enabled := true
                  expires := expirationDate
                  name := secretName
                  notBefore := now }
              (w.kvSet secretProperties msiCredObj.credentialsObject,
               [.fetch req, .kvWrite secretProperties msiCredObj.credentialsObject])
      else (.error err, [])

/-- Update the first entry of the association list whose key
case-insensitively equals the resource identifier, overwriting its
ClientID and PrincipalID under the original key; none when no key
matches. This is the loop body of the mutation closure in
clusterIdentityIDs. -/
def updateFirstMatch (resourceId clientID objectID : String) :
    List (String × ClusterUserAssignedIdentity) →
      Option (List (String × ClusterUserAssignedIdentity))
  | [] => none
  | (k, v) :: rest =>
    if equalFold k resourceId then
      some ((k, { v with clientID := clientID, principalID := objectID }) :: rest)
    else
      match updateFirstMatch resourceId clientID objectID rest with
      | none => none
      | some rest' => some ((k, v) :: rest')

/-- The mutation closure passed to PatchWithLease by clusterIdentityIDs:
scan UserAssignedIdentities for the key matching the cluster MSI resource
identifier under case-folding, overwrite that entry's ClientID and
PrincipalID in place, and fail when no entry matches. -/
def clusterIdentityIDsMutation (resourceId clientID objectID : String)
    (doc : OpenShiftClusterDocument) : Except GoError OpenShiftClusterDocument :=
  match updateFirstMatch resourceId clientID objectID
      doc.openShiftCluster.identity.userAssignedIdentities with
  | some updated =>
    .ok { doc with openShiftCluster :=
          { doc.openShiftCluster with identity :=
            { doc.openShiftCluster.identity with
              userAssignedIdentities := updated } } }
  | none => .error (.errorsNew "no entries found matching clusterMsiResourceId")

/-- The versioned stored document the database holds under the cluster
document's key. -/
structure DocDB where
  version : Nat
  doc : OpenShiftClusterDocument
deriving DecidableEq, Repr

/-- Modelled from the spec: PatchWithLease (database package, outside
src/) acquires a lease on the key, reads the stored document, applies the
mutation to an in-memory copy, aborts with the mutation's error verbatim
and no write when the mutation fails, and otherwise commits the mutated
copy under a version check; the lease is released on every path. The
lease-acquisition and version-conflict failures are external
nondeterminism not needed by the claims, so this models the run in which
lease and commit succeed and the mutation's outcome decides write versus
abort. -/
def PatchWithLease (db : DocDB)
    (mutate : OpenShiftClusterDocument → Except GoError OpenShiftClusterDocument) :
    Except GoError OpenShiftClusterDocument × DocDB :=
  match mutate db.doc with
  | .error e => (.error e, db)
  | .ok doc => (.ok doc, { version := db.version + 1, doc := doc })

/-- clusterIdentityIDs from clustermsi.go, returning the Go function's
result, the manager state after the call, the database state after the
call, and the trace of dataplane fetches it performs. Fails immediately
for a non-workload-identity cluster; otherwise fetches the credentials,
extracts the single explicit identity, requires its ClientID and
ObjectID, and patches the document with clusterIdentityIDsMutation. -/
def clusterIdentityIDs (m : Manager) (w : World) (db : DocDB) :
    Except GoError Unit × Manager × DocDB × List Event :=
  if !m.doc.openShiftCluster.UsesWorkloadIdentity then
    (.error (.errorsNew "clusterIdentityIDs called for CSP cluster"), m, db, [])
  else
    match m.clusterMsiResourceIdResult with
    | .error e => (.error e, m, db, [])
    | .ok clusterMsiResourceId =>
      let req := uaMsiRequest m clusterMsiResourceId
      match w.dataplaneGet req with
      | .error e => (.error e, m, db, [.fetch req])
      | .ok msiCredObj =>
        match getSingleExplicitIdentity msiCredObj with
        | .error e => (.error e, m, db, [.fetch req])
        | .ok identity =>
          match identity.clientID, identity.objectID with
          | some clientID, some objectID =>
            match PatchWithLease db
                (clusterIdentityIDsMutation clusterMsiResourceId.str
                  clientID objectID) with
            | (.error e, db') => (.error e, m, db', [.fetch req])
            | (.ok doc, db') => (.ok (), { m with doc := doc }, db', [.fetch req])
          | _, _ =>
            (.error (.errorsNew
              "unable to pull clientID and objectID from the MSI CredentialsObject"),
             m, db, [.fetch req])

/-- Sample identity records for concrete witnesses. -/
def ncoA : NestedCredentialsObject :=
  { clientID := some "client-a", objectID := some "object-a",
    notAfter := some "2030-01-01T00:00:00Z" }

/-- A second sample identity record for concrete witnesses. -/
def ncoB : NestedCredentialsObject :=
  { clientID := some "client-b", objectID := some "object-b",
    notAfter := some "2031-06-15T12:30:45Z" }

/-- Characterization of a successful updateFirstMatch run: the list splits
at the first case-insensitively matching key, and only that entry's value
is replaced, under its original key. -/
lemma updateFirstMatch_eq_some (resourceId clientID objectID : String) :
    ∀ l updated, updateFirstMatch resourceId clientID objectID l = some updated →
      ∃ pre k v post,
        l = pre ++ (k, v) :: post ∧
        (∀ kv ∈ pre, equalFold kv.1 resourceId = false) ∧
        equalFold k resourceId = true ∧
        updated = pre ++ (k, ⟨clientID, objectID⟩) :: post := by
  intro l
  induction l with
  | nil => intro updated h; simp [updateFirstMatch] at h
  | cons hd tl ih =>
    obtain ⟨k, v⟩ := hd
    intro updated h
    cases hk : equalFold k resourceId with
    | true =>
      refine ⟨[], k, v, tl, rfl, by simp, hk, ?_⟩
      simp [updateFirstMatch, hk] at h
      simpa using h.symm
    | false =>
      simp only [updateFirstMatch, hk, Bool.false_eq_true, if_false] at h
      cases htl : updateFirstMatch resourceId clientID objectID tl with
      | none => rw [htl] at h; simp at h
      | some rest' =>
        rw [htl] at h
        simp only [Option.some.injEq] at h
        obtain ⟨pre, k', v', post, htl_eq, hpre, hk', hrest⟩ := ih rest' htl
        refine ⟨(k, v) :: pre, k', v', post, by simp [htl_eq], ?_, hk', ?_⟩
        · intro kv hkv
          rcases List.mem_cons.mp hkv with h1 | h1
          · rw [h1]; exact hk
          · exact hpre kv h1
        · simp [← h, hrest]

/-- When no key of the list case-insensitively equals the resource
identifier, updateFirstMatch finds nothing. -/
lemma updateFirstMatch_eq_none (resourceId clientID objectID : String) :
    ∀ l, (∀ kv ∈ l, equalFold kv.1 resourceId = false) →
      updateFirstMatch resourceId clientID objectID l = none := by
  intro l
  induction l with
  | nil => intro _; rfl
  | cons hd tl ih =>
    obtain ⟨k, v⟩ := hd
    intro h
    have hk : equalFold k resourceId = false := h (k, v) (List.mem_cons_self _ _)
    have htl := ih (fun kv hkv => h kv (List.mem_cons_of_mem _ hkv))
    simp only [updateFirstMatch, hk, Bool.false_eq_true, if_false, htl]

/-- When some key of the list case-insensitively equals the resource
identifier, updateFirstMatch succeeds. -/
lemma updateFirstMatch_isSome (resourceId clientID objectID : String) :
    ∀ l, (∃ kv ∈ l, equalFold kv.1 resourceId = true) →
      (updateFirstMatch resourceId clientID objectID l).isSome := by
  intro l
  induction l with
  | nil => rintro ⟨kv, hkv, _⟩; simp at hkv
  | cons hd tl ih =>
    obtain ⟨k, v⟩ := hd
    rintro ⟨kv, hkv, hfold⟩
    by_cases hk : equalFold k resourceId
    · simp [updateFirstMatch, hk]
    · rcases List.mem_cons.mp hkv with h1 | h1
      · rw [h1] at hfold; exact absurd hfold hk
      · have := ih ⟨kv, h1, hfold⟩
        cases htl : updateFirstMatch resourceId clientID objectID tl with
        | none => rw [htl] at this; simp at this
        | some rest' => simp [updateFirstMatch, hk, htl]

/-- C3: getSingleExplicitIdentity returns the dedicated identity-not-present
error exactly when the ExplicitIdentities sequence is absent, empty, or has
an absent first element; otherwise it returns the first element of the
sequence, with no requirement that the sequence have length one. -/
theorem getSingleExplicitIdentity_spec (r : UserAssignedIdentities) :
    (getSingleExplicitIdentity r = .error errClusterMsiNotPresentInResponse ↔
      (r.explicitIdentities = none ∨ r.explicitIdentities = some [] ∨
        ∃ rest, r.explicitIdentities = some (none :: rest))) ∧
    (∀ first rest, r.explicitIdentities = some (some first :: rest) →
      getSingleExplicitIdentity r = .ok first) := by
  constructor
  · cases hids : r.explicitIdentities with
    | none => simp [getSingleExplicitIdentity, hids]
    | some l =>
      cases l with
      | nil => simp [getSingleExplicitIdentity, hids]
      | cons hd tl =>
        cases hd with
        | none => simp [getSingleExplicitIdentity, hids]
        | some x => simp [getSingleExplicitIdentity, hids]
  · intro first rest h
    simp [getSingleExplicitIdentity, h]

/-- C3 witness: a response holding two populated identity records is not
rejected; the first record is returned. -/
theorem getSingleExplicitIdentity_spec_witness :
    getSingleExplicitIdentity
        { credentialsObject :=
          { explicitIdentities := some [some ncoA, some ncoB], raw := "payload" } } =
      .ok ncoA :=
  (getSingleExplicitIdentity_spec
    { credentialsObject :=
      { explicitIdentities := some [some ncoA, some ncoB], raw := "payload" } }).2
    ncoA [some ncoB] rfl

/-- A cluster document whose UserAssignedIdentities map holds one entry
keyed with mixed casing, for concrete witnesses. -/
def docFoo : OpenShiftClusterDocument :=
  { id := "docid-1", key := "key-1",
    openShiftCluster :=
      { usesWorkloadIdentityFlag := true,
        identity :=
          { tenantID := "tenant-1", identityURL := "https://identity.example",
            userAssignedIdentities :=
              [("Foo", { clientID := "oldClient", principalID := "oldPrincipal" })] } } }

/-- docFoo after the reconciliation mutation for lookup id foo. -/
def docFooUpdated : OpenShiftClusterDocument :=
  { docFoo with openShiftCluster :=
    { docFoo.openShiftCluster with identity :=
      { docFoo.openShiftCluster.identity with userAssignedIdentities :=
        [("Foo", { clientID := "client-a", principalID := "object-a" })] } } }

/-- C1: when some key of UserAssignedIdentities case-insensitively equals
the cluster MSI resource identifier, the clusterIdentityIDs patch mutation
succeeds, overwriting the matched entry's ClientID with the fetched
identity's ClientID and its PrincipalID with the fetched identity's
ObjectID, and the updated entry is stored under its original key string,
not under the lookup identifier's casing. -/
theorem clusterIdentityIDsMutation_case_insensitive_update
    (doc : OpenShiftClusterDocument) (resourceId clientID objectID : String)
    (h : ∃ kv ∈ doc.openShiftCluster.identity.userAssignedIdentities,
          equalFold kv.1 resourceId = true) :
    ∃ pre k v post,
      doc.openShiftCluster.identity.userAssignedIdentities = pre ++ (k, v) :: post ∧
      equalFold k resourceId = true ∧
      clusterIdentityIDsMutation resourceId clientID objectID doc =
        .ok { doc with openShiftCluster :=
              { doc.openShiftCluster with identity :=
                { doc.openShiftCluster.identity with
                  userAssignedIdentities :=
                    pre ++ (k, ⟨clientID, objectID⟩) :: post } } } := by
  have hsome := updateFirstMatch_isSome resourceId clientID objectID
    doc.openShiftCluster.identity.userAssignedIdentities h
  cases hupd : updateFirstMatch resourceId clientID objectID
      doc.openShiftCluster.identity.userAssignedIdentities with
  | none => rw [hupd] at hsome; simp at hsome
  | some updated =>
    obtain ⟨pre, k, v, post, hsplit, _, hk, hupdated⟩ :=
      updateFirstMatch_eq_some resourceId clientID objectID _ updated hupd
    refine ⟨pre, k, v, post, hsplit, hk, ?_⟩
    unfold clusterIdentityIDsMutation
    rw [hupd, hupdated]

/-- C1 witness: an entry keyed Foo is matched and updated for lookup id
foo; the key remains Foo. -/
theorem clusterIdentityIDsMutation_case_insensitive_update_witness :
    ∃ pre k v post,
      docFoo.openShiftCluster.identity.userAssignedIdentities = pre ++ (k, v) :: post ∧
      equalFold k "foo" = true ∧
      clusterIdentityIDsMutation "foo" "client-a" "object-a" docFoo =
        .ok { docFoo with openShiftCluster :=
              { docFoo.openShiftCluster with identity :=
                { docFoo.openShiftCluster.identity with
                  userAssignedIdentities :=
                    pre ++ (k, ⟨"client-a", "object-a"⟩) :: post } } } :=
  clusterIdentityIDsMutation_case_insensitive_update docFoo "foo" "client-a"
    "object-a" (by decide)

/-- C10: a successful run of the clusterIdentityIDs patch mutation changes
only the ClientID and PrincipalID of the one matched entry: the key
sequence of UserAssignedIdentities, every other entry, and every other
field of the cluster document are unchanged. -/
theorem clusterIdentityIDsMutation_frame
    (doc doc' : OpenShiftClusterDocument) (resourceId clientID objectID : String)
    (h : clusterIdentityIDsMutation resourceId clientID objectID doc = .ok doc') :
    doc'.id = doc.id ∧ doc'.key = doc.key ∧
    doc'.openShiftCluster.usesWorkloadIdentityFlag =
      doc.openShiftCluster.usesWorkloadIdentityFlag ∧
    doc'.openShiftCluster.identity.tenantID =
      doc.openShiftCluster.identity.tenantID ∧
    doc'.openShiftCluster.identity.identityURL =
      doc.openShiftCluster.identity.identityURL ∧
    List.map Prod.fst doc'.openShiftCluster.identity.userAssignedIdentities =
      List.map Prod.fst doc.openShiftCluster.identity.userAssignedIdentities ∧
    ∃ pre k v post,
      doc.openShiftCluster.identity.userAssignedIdentities =
        pre ++ (k, v) :: post ∧
      equalFold k resourceId = true ∧
      doc'.openShiftCluster.identity.userAssignedIdentities =
        pre ++ (k, ⟨clientID, objectID⟩) :: post := by
  unfold clusterIdentityIDsMutation at h
  cases hupd : updateFirstMatch resourceId clientID objectID
      doc.openShiftCluster.identity.userAssignedIdentities with
  | none => rw [hupd] at h; simp at h
  | some updated =>
    rw [hupd] at h
    simp only [Except.ok.injEq] at h
    obtain ⟨pre, k, v, post, hsplit, _, hk, hupdated⟩ :=
      updateFirstMatch_eq_some resourceId clientID objectID _ updated hupd
    subst h
    refine ⟨rfl, rfl, rfl, rfl, rfl, ?_, pre, k, v, post, hsplit, hk, hupdated⟩
    simp only [hupdated, hsplit, List.map_append, List.map_cons]

/-- C10 witness: the frame property at a concrete one-entry document. -/
theorem clusterIdentityIDsMutation_frame_witness :
    docFooUpdated.id = docFoo.id ∧ docFooUpdated.key = docFoo.key ∧
    docFooUpdated.openShiftCluster.usesWorkloadIdentityFlag =
      docFoo.openShiftCluster.usesWorkloadIdentityFlag ∧
    docFooUpdated.openShiftCluster.identity.tenantID =
      docFoo.openShiftCluster.identity.tenantID ∧
    docFooUpdated.openShiftCluster.identity.identityURL =
      docFoo.openShiftCluster.identity.identityURL ∧
    List.map Prod.fst docFooUpdated.openShiftCluster.identity.userAssignedIdentities =
      List.map Prod.fst docFoo.openShiftCluster.identity.userAssignedIdentities ∧
    ∃ pre k v post,
      docFoo.openShiftCluster.identity.userAssignedIdentities =
        pre ++ (k, v) :: post ∧
      equalFold k "foo" = true ∧
      docFooUpdated.openShiftCluster.identity.userAssignedIdentities =
        pre ++ (k, ⟨"client-a", "object-a"⟩) :: post :=
  clusterIdentityIDsMutation_frame docFoo docFooUpdated "foo" "client-a"
    "object-a" rfl

/-- A credentials response holding one populated identity record, for
concrete witnesses. -/
def respA : UserAssignedIdentities :=
  { credentialsObject := { explicitIdentities := some [some ncoA], raw := "payload-a" } }

/-- A sample resource identifier whose lookup string is lowercase. -/
def ridFoo : ResourceID :=
  { str := "foo", name := "foo-name" }

/-- A cluster document none of whose UserAssignedIdentities keys
case-insensitively equals foo. -/
def docBar : OpenShiftClusterDocument :=
  { id := "docid-2", key := "key-2",
    openShiftCluster :=
      { usesWorkloadIdentityFlag := true,
        identity :=
          { tenantID := "tenant-2", identityURL := "https://identity.example",
            userAssignedIdentities :=
              [("Bar", { clientID := "oldClient", principalID := "oldPrincipal" })] } } }

/-- The stored versioned document for the no-match witness. -/
def dbBar : DocDB := { version := 7, doc := docBar }

/-- The manager state for the no-match witness. -/
def mgrBar : Manager :=
  { doc := docBar, subscriptionTenantID := "sub-tenant",
    featureUseMockMsiRp := false, clusterMsiResourceIdResult := .ok ridFoo }

/-- The collaborator behaviour for the no-match witness: the dataplane
returns respA for every request. -/
def worldA : World :=
  { kvGet := fun _ => .error (.responseError 404 "secret not found")
    kvSet := fun _ _ => .ok ()
    dataplaneGet := fun _ => .ok respA
    now := { sec := 1735689600, nsec := 0 } }

/-- C2: when no key of the stored document's UserAssignedIdentities
case-insensitively equals the cluster MSI resource identifier, the
mutation supplied by clusterIdentityIDs fails with the no-matching-entry
error, the patch aborts, and the stored document is unchanged in version
and content; no write is observable. -/
theorem clusterIdentityIDs_no_match (m : Manager) (w : World) (db : DocDB)
    (rid : ResourceID) (resp : UserAssignedIdentities)
    (ident : NestedCredentialsObject) (clientID objectID : String)
    (h1 : m.doc.openShiftCluster.UsesWorkloadIdentity = true)
    (h2 : m.clusterMsiResourceIdResult = .ok rid)
    (h3 : w.dataplaneGet (uaMsiRequest m rid) = .ok resp)
    (h4 : getSingleExplicitIdentity resp = .ok ident)
    (h5 : ident.clientID = some clientID)
    (h6 : ident.objectID = some objectID)
    (h7 : ∀ kv ∈ db.doc.openShiftCluster.identity.userAssignedIdentities,
        equalFold kv.1 rid.str = false) :
    clusterIdentityIDs m w db =
      (.error (.errorsNew "no entries found matching clusterMsiResourceId"),
       m, db, [.fetch (uaMsiRequest m rid)]) := by
  have hmut : clusterIdentityIDsMutation rid.str clientID objectID db.doc =
      .error (.errorsNew "no entries found matching clusterMsiResourceId") := by
    unfold clusterIdentityIDsMutation
    rw [updateFirstMatch_eq_none rid.str clientID objectID _ h7]
  simp only [clusterIdentityIDs, h1, h2, h3, h4, h5, h6, PatchWithLease, hmut,
    Bool.not_true, Bool.false_eq_true, if_false]

/-- C2 witness: reconciliation against a concrete document with no
matching key aborts and leaves the stored document unchanged. -/
theorem clusterIdentityIDs_no_match_witness :
    clusterIdentityIDs mgrBar worldA dbBar =
      (.error (.errorsNew "no entries found matching clusterMsiResourceId"),
       mgrBar, dbBar, [.fetch (uaMsiRequest mgrBar ridFoo)]) :=
  clusterIdentityIDs_no_match mgrBar worldA dbBar ridFoo respA ncoA
    "client-a" "object-a" rfl rfl rfl rfl rfl rfl (by decide)

/-- C8: for a cluster document whose identity is not of the
workload-identity kind, clusterIdentityIDs fails immediately with the
type-mismatch error, performs no dataplane fetch and no patch, and leaves
the manager state and the stored document unchanged. -/
theorem clusterIdentityIDs_wrong_type (m : Manager) (w : World) (db : DocDB)
    (h : m.doc.openShiftCluster.UsesWorkloadIdentity = false) :
    clusterIdentityIDs m w db =
      (.error (.errorsNew "clusterIdentityIDs called for CSP cluster"),
       m, db, []) := by
  simp only [clusterIdentityIDs, h, Bool.not_false, if_true]

/-- A cluster document of the plain (cluster service principal) identity
kind, for the wrong-type witness. -/
def docCsp : OpenShiftClusterDocument :=
  { id := "docid-3", key := "key-3",
    openShiftCluster :=
      { usesWorkloadIdentityFlag := false,
        identity :=
          { tenantID := "tenant-3", identityURL := "https://identity.example",
            userAssignedIdentities := [] } } }

/-- The manager state for the wrong-type witness. -/
def mgrCsp : Manager :=
  { doc := docCsp, subscriptionTenantID := "sub-tenant",
    featureUseMockMsiRp := false, clusterMsiResourceIdResult := .ok ridFoo }

/-- C8 witness: the type-mismatch failure at a concrete non-workload
identity document. -/
theorem clusterIdentityIDs_wrong_type_witness :
    clusterIdentityIDs mgrCsp worldA { version := 3, doc := docCsp } =
      (.error (.errorsNew "clusterIdentityIDs called for CSP cluster"),
       mgrCsp, { version := 3, doc := docCsp }, []) :=
  clusterIdentityIDs_wrong_type mgrCsp worldA { version := 3, doc := docCsp } rfl

/-- C4: when the store lookup of the deterministic secret name succeeds,
ensureClusterMsiCertificate returns success immediately with no further
action: no dataplane fetch and no store write occur. -/
theorem ensureClusterMsiCertificate_idempotent (m : Manager) (w : World)
    (secretName : String) (cred : CredentialsObject)
    (h1 : clusterMsiSecretName m = .ok secretName)
    (h2 : w.kvGet secretName = .ok cred) :
    ensureClusterMsiCertificate m w = (.ok (), []) := by
  simp only [ensureClusterMsiCertificate, h1, h2]

/-- The collaborator behaviour for the idempotence witness: the store
already holds the secret. -/
def worldStocked : World :=
  { worldA with kvGet := fun _ => .ok respA.credentialsObject }

/-- C4 witness: a second call against a store that already holds the
secret performs zero fetches and zero writes. -/
theorem ensureClusterMsiCertificate_idempotent_witness :
    ensureClusterMsiCertificate mgrBar worldStocked = (.ok (), []) :=
  ensureClusterMsiCertificate_idempotent mgrBar worldStocked
    "docid-2-foo-name" respA.credentialsObject rfl rfl

/-- C5: only a lookup failure that is a ResponseError with HTTP status 404
leads to the creation path. Every other lookup error is returned to the
caller unmodified with no fetch and no write performed; on a 404, the
creation path is entered and a dataplane fetch is performed. -/
theorem ensureClusterMsiCertificate_lookup_error (m : Manager) (w : World)
    (rid : ResourceID) (e : GoError)
    (h1 : m.clusterMsiResourceIdResult = .ok rid)
    (h2 : w.kvGet (m.doc.id ++ "-" ++ rid.name) = .error e) :
    (isNotFoundResponse e = false →
      ensureClusterMsiCertificate m w = (.error e, [])) ∧
    (isNotFoundResponse e = true →
      ∃ t, (ensureClusterMsiCertificate m w).2 = .fetch (uaMsiRequest m rid) :: t) := by
  have hname : clusterMsiSecretName m = .ok (m.doc.id ++ "-" ++ rid.name) := by
    simp [clusterMsiSecretName, h1]
  constructor
  · intro hnf
    simp only [ensureClusterMsiCertificate, hname, h2, hnf, Bool.false_eq_true,
      if_false]
  · intro hnf
    simp only [ensureClusterMsiCertificate, hname, h2, hnf, if_true, h1]
    cases hdp : w.dataplaneGet (uaMsiRequest m rid) with
    | error e' => exact ⟨[], rfl⟩
    | ok msiCredObj =>
      cases hexp : (if m.featureUseMockMsiRp then
            Except.ok (w.now.addDays mockMsiCertValidityDays)
          else
            match getSingleExplicitIdentity msiCredObj with
            | .error e => .error e
            | .ok identity =>
              match identity.notAfter with
              | none => .error (.errorsNew
                  "unable to pull NotAfter from the MSI CredentialsObject")
              | some notAfter =>
                match parseRFC3339 notAfter with
                | none => .error (.parseError notAfter)
                | some t => .ok t : Except GoError Time) with
      | error e' => exact ⟨[], by simp [hexp]⟩
      | ok expirationDate =>
        exact ⟨[.kvWrite
          { enabled := true, expires := expirationDate,
            name := m.doc.id ++ "-" ++ rid.name, notBefore := w.now }
          msiCredObj.credentialsObject], by simp [hexp]⟩

/-- The collaborator behaviour for the non-404 lookup failure witness. -/
def worldBroken : World :=
  { worldA with kvGet := fun _ => .error (.storeError "store unreachable") }

/-- C5 witness: a store-infrastructure lookup failure (not a 404
ResponseError) aborts ensureClusterMsiCertificate with that same error
and an empty event trace, and a 404 enters the creation path. -/
theorem ensureClusterMsiCertificate_lookup_error_witness :
    (isNotFoundResponse (.storeError "store unreachable") = false →
      ensureClusterMsiCertificate mgrBar worldBroken =
        (.error (.storeError "store unreachable"), [])) ∧
    (isNotFoundResponse (.storeError "store unreachable") = true →
      ∃ t, (ensureClusterMsiCertificate mgrBar worldBroken).2 =
        .fetch (uaMsiRequest mgrBar ridFoo) :: t) :=
  ensureClusterMsiCertificate_lookup_error mgrBar worldBroken ridFoo
    (.storeError "store unreachable") rfl rfl

/-- C6: on the creation path with the mock feature flag set,
ensureClusterMsiCertificate performs exactly one dataplane fetch and one
store write, and the written secret properties have Enabled true,
NotBefore equal to the captured now, and Expires equal to that same now
plus 90 days. -/
theorem ensureClusterMsiCertificate_mock_creation (m : Manager) (w : World)
    (rid : ResourceID) (e : GoError) (resp : UserAssignedIdentities)
    (h1 : m.clusterMsiResourceIdResult = .ok rid)
    (h2 : w.kvGet (m.doc.id ++ "-" ++ rid.name) = .error e)
    (h3 : isNotFoundResponse e = true)
    (h4 : w.dataplaneGet (uaMsiRequest m rid) = .ok resp)
    (h5 : m.featureUseMockMsiRp = true) :
    ensureClusterMsiCertificate m w =
      (w.kvSet
        { enabled := true, expires := w.now.addDays mockMsiCertValidityDays,
          name := m.doc.id ++ "-" ++ rid.name, notBefore := w.now }
        resp.credentialsObject,
       [.fetch (uaMsiRequest m rid),
        .kvWrite
          { enabled := true, expires := w.now.addDays mockMsiCertValidityDays,
            name := m.doc.id ++ "-" ++ rid.name, notBefore := w.now }
          resp.credentialsObject]) := by
  have hname : clusterMsiSecretName m = .ok (m.doc.id ++ "-" ++ rid.name) := by
    simp [clusterMsiSecretName, h1]
  simp only [ensureClusterMsiCertificate, hname, h2, h3, if_true, h1, h4, h5]

/-- The manager state for the mock-creation witness. -/
def mgrMock : Manager :=
  { mgrBar with featureUseMockMsiRp := true }

/-- C6 witness: the mock creation path at concrete inputs writes a secret
whose Expires is NotBefore plus 90 days. -/
theorem ensureClusterMsiCertificate_mock_creation_witness :
    ensureClusterMsiCertificate mgrMock worldA =
      (worldA.kvSet
        { enabled := true,
          expires := Time.addDays { sec := 1735689600, nsec := 0 } 90,
          name := "docid-2-foo-name", notBefore := { sec := 1735689600, nsec := 0 } }
        respA.credentialsObject,
       [.fetch (uaMsiRequest mgrMock ridFoo),
        .kvWrite
          { enabled := true,
            expires := Time.addDays { sec := 1735689600, nsec := 0 } 90,
            name := "docid-2-foo-name", notBefore := { sec := 1735689600, nsec := 0 } }
          respA.credentialsObject]) :=
  ensureClusterMsiCertificate_mock_creation mgrMock worldA ridFoo
    (.responseError 404 "secret not found") respA rfl rfl rfl rfl rfl

/-- C7: on the creation path with the mock feature flag not set,
ensureClusterMsiCertificate parses the extracted identity record's
NotAfter as a strict RFC3339 timestamp and writes a secret whose Expires
is exactly that instant; an absent NotAfter, or one that does not parse,
aborts the operation with an error and zero store writes. -/
theorem ensureClusterMsiCertificate_real_expiration (m : Manager) (w : World)
    (rid : ResourceID) (e : GoError) (resp : UserAssignedIdentities)
    (ident : NestedCredentialsObject)
    (h1 : m.clusterMsiResourceIdResult = .ok rid)
    (h2 : w.kvGet (m.doc.id ++ "-" ++ rid.name) = .error e)
    (h3 : isNotFoundResponse e = true)
    (h4 : w.dataplaneGet (uaMsiRequest m rid) = .ok resp)
    (h5 : m.featureUseMockMsiRp = false)
    (h6 : getSingleExplicitIdentity resp = .ok ident) :
    (∀ s t, ident.notAfter = some s → parseRFC3339 s = some t →
      ensureClusterMsiCertificate m w =
        (w.kvSet
          { enabled := true, expires := t,
            name := m.doc.id ++ "-" ++ rid.name, notBefore := w.now }
          resp.credentialsObject,
         [.fetch (uaMsiRequest m rid),
          .kvWrite
            { enabled := true, expires := t,
              name := m.doc.id ++ "-" ++ rid.name, notBefore := w.now }
            resp.credentialsObject])) ∧
    (ident.notAfter = none →
      ensureClusterMsiCertificate m w =
        (.error (.errorsNew "unable to pull NotAfter from the MSI CredentialsObject"),
         [.fetch (uaMsiRequest m rid)])) ∧
    (∀ s, ident.notAfter = some s → parseRFC3339 s = none →
      ensureClusterMsiCertificate m w =
        (.error (.parseError s), [.fetch (uaMsiRequest m rid)])) := by
  have hname : clusterMsiSecretName m = .ok (m.doc.id ++ "-" ++ rid.name) := by
    simp [clusterMsiSecretName, h1]
  refine ⟨?_, ?_, ?_⟩
  · intro s t hna hparse
    simp only [ensureClusterMsiCertificate, hname, h2, h3, if_true, h1, h4, h5,
      Bool.false_eq_true, if_false, h6, hna, hparse]
  · intro hna
    simp only [ensureClusterMsiCertificate, hname, h2, h3, if_true, h1, h4, h5,
      Bool.false_eq_true, if_false, h6, hna]
  · intro s hna hparse
    simp only [ensureClusterMsiCertificate, hname, h2, h3, if_true, h1, h4, h5,
      Bool.false_eq_true, if_false, h6, hna, hparse]

/-- C7 witness: a NotAfter of 2030-01-01T00:00:00Z yields a written
Expires of exactly that instant (epoch second 1893456000). -/
theorem ensureClusterMsiCertificate_real_expiration_witness :
    ensureClusterMsiCertificate mgrBar worldA =
      (worldA.kvSet
        { enabled := true, expires := { sec := 1893456000, nsec := 0 },
          name := "docid-2-foo-name", notBefore := { sec := 1735689600, nsec := 0 } }
        respA.credentialsObject,
       [.fetch (uaMsiRequest mgrBar ridFoo),
        .kvWrite
          { enabled := true, expires := { sec := 1893456000, nsec := 0 },
            name := "docid-2-foo-name", notBefore := { sec := 1735689600, nsec := 0 } }
          respA.credentialsObject]) :=
  (ensureClusterMsiCertificate_real_expiration mgrBar worldA ridFoo
      (.responseError 404 "secret not found") respA ncoA
      rfl rfl rfl rfl rfl rfl).1
    "2030-01-01T00:00:00Z" { sec := 1893456000, nsec := 0 } rfl (by decide)

/-- C9: with the mock feature flag set, ensureClusterMsiCertificate never
inspects the ExplicitIdentities sequence of the fetched credentials
object: for every sequence, including an absent or empty one, the result
is the same, the identity-not-present error is not produced, and the raw
credential payload is written to the store as fetched. -/
theorem ensureClusterMsiCertificate_mock_skips_extraction (m : Manager)
    (w : World) (rid : ResourceID) (e : GoError)
    (ids : Option (List (Option NestedCredentialsObject))) (raw : String)
    (h1 : m.clusterMsiResourceIdResult = .ok rid)
    (h2 : w.kvGet (m.doc.id ++ "-" ++ rid.name) = .error e)
    (h3 : isNotFoundResponse e = true)
    (h4 : w.dataplaneGet (uaMsiRequest m rid) =
      .ok { credentialsObject := { explicitIdentities := ids, raw := raw } })
    (h5 : m.featureUseMockMsiRp = true) :
    ensureClusterMsiCertificate m w =
      (w.kvSet
        { enabled := true, expires := w.now.addDays mockMsiCertValidityDays,
          name := m.doc.id ++ "-" ++ rid.name, notBefore := w.now }
        { explicitIdentities := ids, raw := raw },
       [.fetch (uaMsiRequest m rid),
        .kvWrite
          { enabled := true, expires := w.now.addDays mockMsiCertValidityDays,
            name := m.doc.id ++ "-" ++ rid.name, notBefore := w.now }
          { explicitIdentities := ids, raw := raw }]) := by
  have hname : clusterMsiSecretName m = .ok (m.doc.id ++ "-" ++ rid.name) := by
    simp [clusterMsiSecretName, h1]
  simp only [ensureClusterMsiCertificate, hname, h2, h3, if_true, h1, h4, h5]

/-- The collaborator behaviour for the absent-ExplicitIdentities witness:
the dataplane returns a credentials object with a nil identity sequence. -/
def respNil : UserAssignedIdentities :=
  { credentialsObject := { explicitIdentities := none, raw := "raw-nil" } }

/-- The world for the absent-ExplicitIdentities witness, with the nil
response above. -/
def worldNilIdentities : World :=
  { worldA with dataplaneGet := fun _ => .ok respNil }

/-- C9 witness: with the mock flag set and a response whose
ExplicitIdentities is absent, the call still writes the raw payload and
does not fail with the identity-not-present error. -/
theorem ensureClusterMsiCertificate_mock_skips_extraction_witness :
    ensureClusterMsiCertificate mgrMock worldNilIdentities =
      (worldNilIdentities.kvSet
        { enabled := true,
          expires := Time.addDays { sec := 1735689600, nsec := 0 } 90,
          name := "docid-2-foo-name", notBefore := { sec := 1735689600, nsec := 0 } }
        { explicitIdentities := none, raw := "raw-nil" },
       [.fetch (uaMsiRequest mgrMock ridFoo),
        .kvWrite
          { enabled := true,
            expires := Time.addDays { sec := 1735689600, nsec := 0 } 90,
            name := "docid-2-foo-name", notBefore := { sec := 1735689600, nsec := 0 } }
          { explicitIdentities := none, raw := "raw-nil" }]) :=
  ensureClusterMsiCertificate_mock_skips_extraction mgrMock worldNilIdentities
    ridFoo (.responseError 404 "secret not found") none "raw-nil" rfl rfl rfl rfl rfl
